import Mathlib

/-!
Shallow embedding of the birdsync repository (Go) and verification of its
specification claims.

Source files embedded:
- `src/unnamed/part_000` (package `ebird`): `Record`, `Record.URL`,
  `Record.Observed`, `Record.ObservationID`, `Records` (CSV decoding),
  `ObservationID.Valid`, `DownloadMLAsset`.
- `src/inat/inat.go` (package `inat`): `Client.DownloadObservations`
  (paginated retrieval loop).

The Go standard library `time.Parse` is embedded for exactly the four layout
strings that appear in the source, following the parsing semantics of
`go/src/time/format.go` (`getnum` fixed/non-fixed digit fields, four-digit
years, `PM`/`AM` handling, inline hour/minute range checks, and the final
month/day range checks).
-/

set_option maxHeartbeats 1000000
set_option maxRecDepth 4000

namespace Birdsync

/-! ## Embedding of Go `time.Parse` for the four layouts used by the source -/

/-- A resolved instant (Go `time.Time` restricted to the fields these layouts
can set; all parses in the source are in UTC with zero seconds). -/
structure DateTime where
  year : Nat
  month : Nat
  day : Nat
  hour : Nat
  minute : Nat
  deriving DecidableEq, Repr

/-- Layout tokens produced by Go `nextStdChunk` for the four layout strings in
the source: `1/2/2006`, `2006-01-02`, `1/2/2006 3:04 PM`,
`2006-01-02 03:04 PM`. -/
inductive Std where
  | longYear   : Std            -- "2006"
  | numMonth   : Std            -- "1"
  | zeroMonth  : Std            -- "01"
  | day        : Std            -- "2"
  | zeroDay    : Std            -- "02"
  | hour12     : Std            -- "3"
  | zeroHour12 : Std            -- "03"
  | zeroMinute : Std            -- "04"
  | pm         : Std            -- "PM"
  | lit        : Char → Std     -- literal separator text
  deriving DecidableEq, Repr

/-- Go `isDigit`: ASCII decimal digit test. -/
def isDigitC (c : Char) : Bool := 48 ≤ c.toNat && c.toNat ≤ 57

/-- Numeric value of an ASCII digit character. -/
def digitVal (c : Char) : Nat := c.toNat - 48

/-- Go `getnum`: reads a one- or two-digit number; with `fixed = true`
(zero-padded layout tokens such as "03") exactly two digits are required. -/
def getnum (s : List Char) (fixed : Bool) : Except String (Nat × List Char) :=
  match s with
  | [] => .error "bad value"
  | c1 :: rest =>
    if isDigitC c1 then
      match rest with
      | c2 :: rest2 =>
        if isDigitC c2 then .ok (10 * digitVal c1 + digitVal c2, rest2)
        else if fixed then .error "bad value"
        else .ok (digitVal c1, rest)
      | [] => if fixed then .error "bad value" else .ok (digitVal c1, [])
    else .error "bad value"

/-- Go `stdLongYear`: requires four characters, all decimal digits (the first
by the explicit `isDigit` check, the rest because `atoi` fails otherwise). -/
def getYear4 (s : List Char) : Except String (Nat × List Char) :=
  match s with
  | c1 :: c2 :: c3 :: c4 :: rest =>
    if isDigitC c1 && isDigitC c2 && isDigitC c3 && isDigitC c4 then
      .ok (1000 * digitVal c1 + 100 * digitVal c2 + 10 * digitVal c3 + digitVal c4, rest)
    else .error "bad value"
  | _ => .error "bad value"

/-- Parser state while consuming layout tokens; defaults are Go's
(year 0, January 1, midnight). -/
structure PState where
  rest : List Char
  year : Nat := 0
  month : Nat := 1
  day : Nat := 1
  hour : Nat := 0
  minute : Nat := 0
  pmSet : Bool := false
  amSet : Bool := false
  deriving Repr

/-- Consume one layout token, as in the big switch of Go `time.Parse`,
including the inline range checks for 12-hour hours and minutes. -/
def parseTok (t : Std) (st : PState) : Except String PState :=
  match t with
  | .lit c =>
    match st.rest with
    | c' :: rest => if c' = c then .ok { st with rest := rest } else .error "bad value"
    | [] => .error "bad value"
  | .longYear =>
    match getYear4 st.rest with
    | .ok (y, rest) => .ok { st with year := y, rest := rest }
    | .error e => .error e
  | .numMonth =>
    match getnum st.rest false with
    | .ok (m, rest) => .ok { st with month := m, rest := rest }
    | .error e => .error e
  | .zeroMonth =>
    match getnum st.rest true with
    | .ok (m, rest) => .ok { st with month := m, rest := rest }
    | .error e => .error e
  | .day =>
    match getnum st.rest false with
    | .ok (d, rest) => .ok { st with day := d, rest := rest }
    | .error e => .error e
  | .zeroDay =>
    match getnum st.rest true with
    | .ok (d, rest) => .ok { st with day := d, rest := rest }
    | .error e => .error e
  | .hour12 =>
    match getnum st.rest false with
    | .ok (h, rest) =>
      if 12 < h then .error "hour out of range"
      else .ok { st with hour := h, rest := rest }
    | .error e => .error e
  | .zeroHour12 =>
    match getnum st.rest true with
    | .ok (h, rest) =>
      if 12 < h then .error "hour out of range"
      else .ok { st with hour := h, rest := rest }
    | .error e => .error e
  | .zeroMinute =>
    match getnum st.rest true with
    | .ok (m, rest) =>
      if 60 ≤ m then .error "minute out of range"
      else .ok { st with minute := m, rest := rest }
    | .error e => .error e
  | .pm =>
    match st.rest with
    | a :: b :: rest =>
      if a = 'P' ∧ b = 'M' then .ok { st with pmSet := true, rest := rest }
      else if a = 'A' ∧ b = 'M' then .ok { st with amSet := true, rest := rest }
      else .error "bad value"
    | _ => .error "bad value"

/-- Run a list of layout tokens over the parser state. -/
def runToks (toks : List Std) (st : PState) : Except String PState :=
  match toks with
  | [] => .ok st
  | t :: ts =>
    match parseTok t st with
    | .ok st2 => runToks ts st2
    | .error e => .error e

/-- Go `isLeap`. -/
def isLeap (y : Nat) : Bool := y % 4 = 0 && (y % 100 ≠ 0 || y % 400 = 0)

/-- Go `daysIn`: number of days in a month of a year. -/
def daysIn (m y : Nat) : Nat :=
  if m = 2 then (if isLeap y then 29 else 28)
  else if m = 4 ∨ m = 6 ∨ m = 9 ∨ m = 11 then 30
  else 31

/-- Go `time.Parse` for the given tokenized layout: run the tokens, require
the input to be fully consumed, apply the AM/PM hour adjustment, and perform
the final month and day-in-month range checks. -/
def goParse (layout : List Std) (s : List Char) : Except String DateTime :=
  match runToks layout { rest := s } with
  | .error e => .error e
  | .ok st =>
    if st.rest ≠ [] then .error "extra text"
    else
      let hour :=
        if st.pmSet ∧ st.hour < 12 then st.hour + 12
        else if st.amSet ∧ st.hour = 12 then 0
        else st.hour
      if st.month < 1 ∨ 12 < st.month then .error "month out of range"
      else if st.day < 1 ∨ st.day > daysIn st.month st.year then .error "day out of range"
      else .ok ⟨st.year, st.month, st.day, hour, st.minute⟩

/-- Tokenization of layout `"1/2/2006"`. -/
def layoutSlashDate : List Std := [.numMonth, .lit '/', .day, .lit '/', .longYear]

/-- Tokenization of layout `"2006-01-02"`. -/
def layoutISODate : List Std := [.longYear, .lit '-', .zeroMonth, .lit '-', .zeroDay]

/-- Tokenization of layout `"1/2/2006 3:04 PM"`. -/
def layoutSlashDateTime : List Std :=
  layoutSlashDate ++ [.lit ' ', .hour12, .lit ':', .zeroMinute, .lit ' ', .pm]

/-- Tokenization of layout `"2006-01-02 03:04 PM"`. -/
def layoutISODateTime : List Std :=
  layoutISODate ++ [.lit ' ', .zeroHour12, .lit ':', .zeroMinute, .lit ' ', .pm]

/-! ## `Record` and its methods (src/unnamed/part_000) -/

/-- The fields of a `MyEBirdData.csv` record (Go struct `Record`); defaults
are Go's zero values. -/
structure Record where
  Line : Nat := 0
  SubmissionID : String := ""
  CommonName : String := ""
  ScientificName : String := ""
  TaxonomicOrder : String := ""
  Count : String := ""
  StateProvince : String := ""
  County : String := ""
  LocationID : String := ""
  Location : String := ""
  Latitude : String := ""
  Longitude : String := ""
  Date : String := ""
  Time : String := ""
  Protocol : String := ""
  DurationMin : String := ""
  AllObsReported : String := ""
  DistanceTraveledKm : String := ""
  AreaCoveredHa : String := ""
  NumberOfObservers : String := ""
  BreedingCode : String := ""
  ObservationDetails : String := ""
  ChecklistComments : String := ""
  MLCatalogNumbers : String := ""
  deriving DecidableEq, Repr

/-- Go `Record.URL`. -/
def Record.URL (r : Record) : String := "https://ebird.org/checklist/" ++ r.SubmissionID

/-- Go `Record.Observed`: `strings.Contains(r.Date, "/")` selects a layout
branch; an empty time parses the date alone, otherwise the date and time are
concatenated with a space and parsed with the extended layout. -/
def Record.Observed (r : Record) : Except String DateTime :=
  if r.Time = "" then
    if '/' ∈ r.Date.data then goParse layoutSlashDate r.Date.data
    else goParse layoutISODate r.Date.data
  else
    if '/' ∈ r.Date.data then goParse layoutSlashDateTime (r.Date ++ " " ++ r.Time).data
    else goParse layoutISODateTime (r.Date ++ " " ++ r.Time).data

/-- Go struct `ObservationID`. -/
structure ObservationID where
  SubmissionID : String
  ScientificName : String
  deriving DecidableEq, Repr

/-- Go `Record.ObservationID`. -/
def Record.ObservationID (r : Record) : ObservationID :=
  ⟨r.SubmissionID, r.ScientificName⟩

/-- Go `ObservationID.Valid`. -/
def ObservationID.Valid (o : ObservationID) : Bool :=
  o.SubmissionID ≠ "" && o.ScientificName ≠ ""

/-- Go `ObservationID.String`. -/
def ObservationID.render (o : ObservationID) : String :=
  o.SubmissionID ++ "[" ++ o.ScientificName ++ "]"

/-! ## `Records` (src/unnamed/part_000, lines 80-143) -/

/-- The header-name-to-column-index map built by `Records`
(`for i, f := range recs[0] { field[f] = i }`): a Go map, so a later
duplicate header name overwrites an earlier one. Lookup of an absent key is
modelled by `Option`; Go's zero-value-on-missing-key semantics is applied at
the use site via `goMapGet`. -/
def buildField (hdr : List String) : String → Option Nat :=
  hdr.enum.foldl (fun m p => fun k => if k = p.2 then some p.1 else m k) (fun _ => none)

/-- Go map indexing `field[key]`: an absent key yields the zero value 0. -/
def goMapGet (field : String → Option Nat) (key : String) : Nat :=
  (field key).getD 0

/-- The `stringField` closure inside `Records`:
`if f := field[key]; f < len(rec) { return rec[f] }; return ""`. -/
def stringField (field : String → Option Nat) (rec : List String) (key : String) : String :=
  rec.getD (goMapGet field key) ""

/-- Construction of one `Record` from a data row inside the `Records`
iterator (`line` is the 1-indexed CSV line, the header being line 1). -/
def decodeRecord (field : String → Option Nat) (rec : List String) (line : Nat) : Record :=
  { Line := line
    SubmissionID := stringField field rec "Submission ID"
    CommonName := stringField field rec "Common Name"
    ScientificName := stringField field rec "Scientific Name"
    TaxonomicOrder := stringField field rec "Taxonomic Order"
    Count := stringField field rec "Count"
    StateProvince := stringField field rec "State/Province"
    County := stringField field rec "County"
    LocationID := stringField field rec "Location ID"
    Location := stringField field rec "Location"
    Latitude := stringField field rec "Latitude"
    Longitude := stringField field rec "Longitude"
    Date := stringField field rec "Date"
    Time := stringField field rec "Time"
    Protocol := stringField field rec "Protocol"
    DurationMin := stringField field rec "Duration (Min)"
    AllObsReported := stringField field rec "All Obs Reported"
    DistanceTraveledKm := stringField field rec "Distance Traveled (km)"
    AreaCoveredHa := stringField field rec "Area Covered (ha)"
    NumberOfObservers := stringField field rec "Number of Observers"
    BreedingCode := stringField field rec "Breeding Code"
    ObservationDetails := stringField field rec "Observation Details"
    ChecklistComments := stringField field rec "Checklist Comments"
    MLCatalogNumbers := stringField field rec "ML Catalog Numbers" }

/-- Outcome of `Records`: either a `log.Fatalf` process termination, or the
normal return `(iter.Seq[Record], error)` — the sequence modelled as the list
of records it yields, paired with the returned Go `error` value. -/
inductive RecordsResult where
  | fatal (msg : String) : RecordsResult
  | ok (recs : List Record) (err : Option String) : RecordsResult
  deriving DecidableEq, Repr

/-- Go `Records(filename)`. The file-system and CSV collaborators are inputs:
`openErr` is the error from `os.Open` (if any) and `readAll` the outcome of
`csv.ReadAll` (with `FieldsPerRecord = -1`, so rows of any width are allowed).
Open failure, read failure and an empty record list each `log.Fatalf`;
otherwise row 1 is the header and each remaining row is decoded, the data
rows being lines 2, 3, ... The function's `error` result is the literal `nil`
of `return func(...) {...}, nil`. -/
def Records (openErr : Option String) (readAll : Except String (List (List String))) :
    RecordsResult :=
  match openErr with
  | some e => .fatal ("ebird.Records: " ++ e)
  | none =>
    match readAll with
    | .error e => .fatal ("Error reading CSV records: " ++ e)
    | .ok recs =>
      match recs with
      | [] => .fatal "No records found"
      | hdr :: rows =>
        let field := buildField hdr
        .ok (rows.enum.map (fun p => decodeRecord field p.2 (p.1 + 2))) none

/-! ## `Client.DownloadObservations` (src/inat/inat.go, lines 19-87) -/

/-- The decoded response body of one page (`Observations`): the
server-reported total and the page's result items (items modelled
abstractly as `Nat`). -/
structure Observations where
  totalResults : Nat
  results : List Nat
  deriving DecidableEq, Repr

/-- State of the `for page := 1; ; page++` loop in `DownloadObservations`:
accumulated `results`, the captured `totalResults` (0 until first captured),
the next `page` to request, and the number of requests issued so far. -/
structure LoopState where
  results : List Nat
  totalResults : Nat
  page : Nat
  nreq : Nat
  deriving DecidableEq, Repr

/-- One-or-more iterations of the download loop, fuelled. `server` maps a
page number to the decoded `Observations` of that page's response (transport
and decode errors are `log.Fatal` in the source and therefore outside the
returned-value behaviour modelled here). Each iteration issues exactly one
request, then: breaks if the page's reported total is zero; captures the
total on the first iteration (`if totalResults == 0`); appends the page's
results; and breaks once `len(results) >= totalResults`. Returns `none` when
the fuel runs out before the loop breaks. -/
def loopAux (server : Nat → Observations) : LoopState → Nat → Option (List Nat × Nat)
  | _, 0 => none
  | st, fuel + 1 =>
    let obs := server st.page
    if obs.totalResults = 0 then some (st.results, st.nreq + 1)
    else
      let total := if st.totalResults = 0 then obs.totalResults else st.totalResults
      let results := st.results ++ obs.results
      if total ≤ results.length then some (results, st.nreq + 1)
      else loopAux server ⟨results, total, st.page + 1, st.nreq + 1⟩ fuel

/-- Go `Client.DownloadObservations`, fuelled: the loop starts at page 1 with
no accumulated results and no captured total. The result is the returned
`[]Result` paired with the number of requests issued, or `none` if the loop
has not terminated within `fuel` iterations. -/
def DownloadObservations (server : Nat → Observations) (fuel : Nat) :
    Option (List Nat × Nat) :=
  loopAux server ⟨[], 0, 1, 0⟩ fuel

/-! ## `DownloadMLAsset` (src/unnamed/part_000, lines 179-239) -/

/-- An HTTP response as seen by `DownloadMLAsset` (status code; the body is
consumed only by the external copy collaborator). -/
structure HttpResp where
  statusCode : Nat
  deriving DecidableEq, Repr

/-- Errors returned by `DownloadMLAsset` (Go builds formatted strings; the
embedding keeps the identifying data carried by each message). -/
inductive MLErr where
  | transport (mlAssetID url msg : String) : MLErr
  | retrieval (mlAssetID url : String) (status : Nat) : MLErr
  | createTemp (mlAssetID : String) (msg : String) : MLErr
  | copy (mlAssetID : String) (msg : String) : MLErr
  | seek (mlAssetID : String) (msg : String) : MLErr
  | readTemp (mlAssetID : String) (msg : String) : MLErr
  | contentType (mlAssetID mimeType : String) : MLErr
  | rename (mlAssetID : String) (msg : String) : MLErr
  deriving DecidableEq, Repr

/-- The external file-system and MIME collaborators of `DownloadMLAsset`
(`os.CreateTemp`, `io.Copy`, `Seek`/`Read`, `http.DetectContentType`,
`mime.ExtensionsByType`, `os.Rename`), supplied as inputs: each field is the
outcome the collaborator produces on this call. -/
structure MLEnv where
  createTemp : Except String String
  copyErr : Option String
  seekErr : Option String
  readBytes : Except String (List UInt8)
  detect : List UInt8 → String
  extensionsByType : String → List String
  renameErr : Option String

/-- The photo-rendition URL tried first by `DownloadMLAsset`. -/
def photoURL (mlAssetID : String) : String :=
  "https://cdn.download.ams.birds.cornell.edu/api/v2/asset/" ++ mlAssetID ++ "/2400"

/-- The audio-rendition URL tried when the photo probe returns 404. -/
def audioURL (mlAssetID : String) : String :=
  "https://cdn.download.ams.birds.cornell.edu/api/v2/asset/" ++ mlAssetID ++ "/mp3"

/-- The tail of `DownloadMLAsset` after the probes (lines 197-238): the final
status check against 200, temp-file creation, body copy, and — for photos
only — content-type sniffing to choose the extension (audio keeps `.mp3`),
then the rename to the extension-suffixed path. -/
def finishDownload (env : MLEnv) (mlAssetID url : String) (isPhoto : Bool)
    (resp : HttpResp) : Except MLErr (String × Bool) :=
  if resp.statusCode ≠ 200 then .error (.retrieval mlAssetID url resp.statusCode)
  else
    match env.createTemp with
    | .error e => .error (.createTemp mlAssetID e)
    | .ok tmpName =>
      match env.copyErr with
      | some e => .error (.copy mlAssetID e)
      | none =>
        let extResult : Except MLErr String :=
          if isPhoto then
            match env.seekErr with
            | some e => .error (.seek mlAssetID e)
            | none =>
              match env.readBytes with
              | .error e => .error (.readTemp mlAssetID e)
              | .ok buf =>
                let mimeType := env.detect buf
                match env.extensionsByType mimeType with
                | [] => .error (.contentType mlAssetID mimeType)
                | ext :: _ => .ok ext
          else .ok ".mp3"
        match extResult with
        | .error e => .error e
        | .ok ext =>
          match env.renameErr with
          | some e => .error (.rename mlAssetID e)
          | none => .ok (tmpName ++ ext, isPhoto)

/-- Go `DownloadMLAsset`: probe the photo endpoint; on 404 probe the audio
endpoint; then finish the download. `net` maps a URL to the outcome of
`http.Get` on it. The second component of the result is the list of URLs
requested, in order. -/
def DownloadMLAsset (net : String → Except String HttpResp) (env : MLEnv)
    (mlAssetID : String) : Except MLErr (String × Bool) × List String :=
  let url := photoURL mlAssetID
  match net url with
  | .error e => (.error (.transport mlAssetID url e), [url])
  | .ok resp =>
    let isPhoto := resp.statusCode = 200
    if resp.statusCode = 404 then
      let url2 := audioURL mlAssetID
      match net url2 with
      | .error e => (.error (.transport mlAssetID url2 e), [url, url2])
      | .ok resp2 => (finishDownload env mlAssetID url2 isPhoto resp2, [url, url2])
    else (finishDownload env mlAssetID url isPhoto resp, [url])

/-! ## Concrete fixtures used to instantiate the theorems -/

/-- A server whose first page already reports a total of zero. -/
def serverZero : Nat → Observations := fun _ => ⟨0, []⟩

/-- A server reporting total 250 that serves 200 results on page 1 and the
remaining 50 on page 2. -/
def server250 : Nat → Observations := fun p =>
  if p = 1 then ⟨250, List.range 200⟩ else ⟨250, List.range' 200 50⟩

/-- A server that reports a nonzero total on every page but never returns any
results. -/
def badServer : Nat → Observations := fun _ => ⟨5, []⟩

/-- A server reporting total 3 that returns one result per page. -/
def goodServer : Nat → Observations := fun p => ⟨3, [p]⟩

/-- A server whose page 1 reports total 3 with one result, and whose page 2
reports total 0. -/
def zeroAt2Server : Nat → Observations := fun p =>
  if p = 1 then ⟨3, [7]⟩ else ⟨0, []⟩

/-- A network on which every URL answers HTTP 200. -/
def net200 : String → Except String HttpResp := fun _ => .ok ⟨200⟩

/-- A network on which the photo probe answers 404 and the audio endpoint
answers 200. -/
def net404 : String → Except String HttpResp := fun u =>
  if u = audioURL "1" then .ok ⟨200⟩ else .ok ⟨404⟩

/-- A network on which every URL answers HTTP 500. -/
def net500 : String → Except String HttpResp := fun _ => .ok ⟨500⟩

/-- A file-system environment in which every collaborator succeeds and the
downloaded bytes sniff as a JPEG. -/
def envOK : MLEnv :=
  ⟨.ok "/tmp/birdsync123", none, none, .ok [], fun _ => "image/jpeg", fun _ => [".jpg"], none⟩

/-! ## Theorems -/

/-- C9: for every Record `r`, `r.URL()` equals the string concatenation
`"https://ebird.org/checklist/" + r.SubmissionID`. -/
theorem C9_url_concat (r : Record) :
    r.URL = "https://ebird.org/checklist/" ++ r.SubmissionID := rfl

/-- C8: for every Record, the derived ObservationID's `Valid()` predicate
holds if and only if both the submission identifier and the scientific name
are non-empty strings. -/
theorem C8_valid_iff (r : Record) :
    r.ObservationID.Valid = true ↔ (r.SubmissionID ≠ "" ∧ r.ScientificName ≠ "") := by
  simp [Record.ObservationID, ObservationID.Valid]

/-- C5: with page size 200, a server reporting total 0 on page 1 yields an
empty result set after exactly one request, and a server reporting total 250
(200 results on page 1, 50 on page 2) yields all 250 results after exactly
two requests. -/
theorem C5_pagination_vectors :
    DownloadObservations serverZero 1 = some ([], 1) ∧
    DownloadObservations server250 2 = some (List.range 250, 2) := by
  constructor
  · rfl
  · decide

/-- C1 (evaluation at the failing input): a header lacking the column
"Submission ID" does not make the decoded submission identifier empty: the
Go map lookup of the absent key yields index 0, so the decoder returns the
row's first cell. With header `["Common Name"]` and row `["Alpha"]`, every
semantic field — including `SubmissionID` — decodes to `"Alpha"`, not `""`. -/
theorem C1_absent_column_reads_cell_zero :
    Records none (.ok [["Common Name"], ["Alpha"]]) =
      .ok [decodeRecord (buildField ["Common Name"]) ["Alpha"] 2] none ∧
    (decodeRecord (buildField ["Common Name"]) ["Alpha"] 2).SubmissionID = "Alpha" ∧
    (decodeRecord (buildField ["Common Name"]) ["Alpha"] 2).SubmissionID ≠ "" := by
  refine ⟨rfl, rfl, ?_⟩
  decide

/-- C10: whenever `Records` returns at all (rather than terminating the
process via `log.Fatalf`), the error component of its return value is `nil`. -/
theorem C10_records_err_nil (openErr : Option String)
    (readAll : Except String (List (List String))) (recs : List Record)
    (err : Option String) (h : Records openErr readAll = .ok recs err) :
    err = none := by
  unfold Records at h
  cases openErr with
  | some e => simp at h
  | none =>
    cases readAll with
    | error e => simp at h
    | ok rows =>
      cases rows with
      | nil => simp at h
      | cons hdr rest =>
        simp only [RecordsResult.ok.injEq] at h
        exact h.2.symm

/-- Witness for C10 at a concrete file content. -/
theorem C10_records_err_nil_witness :
    Records none (.ok [["Submission ID"], ["S1"]]) =
      .ok [decodeRecord (buildField ["Submission ID"]) ["S1"] 2] none ∧
    (none : Option String) = none :=
  ⟨rfl, C10_records_err_nil none (.ok [["Submission ID"], ["S1"]])
    [decodeRecord (buildField ["Submission ID"]) ["S1"] 2] none rfl⟩

/-- C7: the zero-total stop condition is evaluated on every page, not only
page 1: from any loop state, if the requested page reports a total result
count of zero, the loop stops at that page and returns exactly the results
accumulated so far. -/
theorem C7_zero_total_stops_any_page (server : Nat → Observations)
    (st : LoopState) (fuel : Nat) (h : (server st.page).totalResults = 0) :
    loopAux server st (fuel + 1) = some (st.results, st.nreq + 1) := by
  unfold loopAux
  simp [h]

/-- Witness for C7: page 1 reports total 3 with one result, page 2 reports
total 0; from the state after page 1, the loop stops and returns that page's
results. -/
theorem C7_zero_total_stops_any_page_witness :
    (zeroAt2Server 2).totalResults = 0 ∧
    loopAux zeroAt2Server ⟨[7], 3, 2, 1⟩ 1 = some ([7], 2) :=
  ⟨rfl, C7_zero_total_stops_any_page zeroAt2Server ⟨[7], 3, 2, 1⟩ 0 rfl⟩

/-- Against a server that always reports total 5 with an empty result page,
the loop body never reaches a break, whatever the fuel, captured total,
page, or request count. -/
theorem badServer_loopAux_none :
    ∀ (fuel t p n : Nat), loopAux badServer ⟨[], t, p, n⟩ fuel = none := by
  intro fuel
  induction fuel with
  | zero => intro t p n; rfl
  | succ k ih =>
    intro t p n
    rw [loopAux]
    by_cases ht : t = 0
    · subst ht
      simpa [badServer] using ih 5 (p + 1) (n + 1)
    · have h1 : ¬ t ≤ 0 := by omega
      simpa [badServer, ht, h1] using ih t (p + 1) (n + 1)

/-- C2 counterexample: the download loop has no "page contributed zero new
results" stop condition. A server that reports the nonzero total 5 on every
page while returning no results makes `DownloadObservations` run forever: no
amount of loop fuel reaches termination. -/
theorem C2_counterexample_nontermination :
    ¬ ∃ fuel r, DownloadObservations badServer fuel = some r := by
  rintro ⟨fuel, r, h⟩
  rw [DownloadObservations, badServer_loopAux_none fuel 0 1 0] at h
  exact Option.noConfusion h

/-- If every page with a nonzero reported total contributes at least one
result, the loop from a state with a captured nonzero total terminates
within fuel bounded by the outstanding result count. -/
theorem loopAux_progress_terminates (server : Nat → Observations)
    (H : ∀ p, (server p).totalResults ≠ 0 → 1 ≤ (server p).results.length) :
    ∀ (k : Nat) (st : LoopState), st.totalResults ≠ 0 →
      st.totalResults ≤ st.results.length + k + 1 →
      ∃ r, loopAux server st (k + 1) = some r := by
  intro k
  induction k with
  | zero =>
    intro st h0 hb
    rw [loopAux]
    by_cases hz : (server st.page).totalResults = 0
    · exact ⟨(st.results, st.nreq + 1), by simp [hz]⟩
    · have hlen := H st.page hz
      have hle : st.totalResults ≤ st.results.length + (server st.page).results.length := by
        omega
      exact ⟨(st.results ++ (server st.page).results, st.nreq + 1),
        by simp [List.length_append, hz, h0, hle]⟩
  | succ k ih =>
    intro st h0 hb
    by_cases hz : (server st.page).totalResults = 0
    · exact ⟨(st.results, st.nreq + 1), by rw [loopAux]; simp [hz]⟩
    · have hlen := H st.page hz
      by_cases hle : st.totalResults ≤ st.results.length + (server st.page).results.length
      · exact ⟨(st.results ++ (server st.page).results, st.nreq + 1),
          by rw [loopAux]; simp [List.length_append, hz, h0, hle]⟩
      · have hb2 : st.totalResults ≤ (st.results ++ (server st.page).results).length + k + 1 := by
          rw [List.length_append]; omega
        obtain ⟨r, hr⟩ :=
          ih ⟨st.results ++ (server st.page).results, st.totalResults, st.page + 1, st.nreq + 1⟩
            h0 hb2
        refine ⟨r, ?_⟩
        rw [loopAux]
        simpa [List.length_append, hz, h0, hle] using hr

/-- C2 (amended): the paginated retrieval loop stops when a page reports a
total of zero or when the accumulated result count reaches or exceeds the
captured total, and it terminates for every response sequence in which each
page with a nonzero reported total contributes at least one new result
(fuel `(server 1).totalResults + 1` suffices); the source has no defensive
zero-new-results stop, so a server that reports a nonzero total but stops
returning new items loops forever. -/
theorem C2_amended_termination (server : Nat → Observations)
    (H : ∀ p, (server p).totalResults ≠ 0 → 1 ≤ (server p).results.length) :
    ∃ r, DownloadObservations server ((server 1).totalResults + 1) = some r := by
  rw [DownloadObservations]
  by_cases hz : (server 1).totalResults = 0
  · exact ⟨([], 1), by rw [loopAux]; simp [hz]⟩
  · have hlen := H 1 hz
    by_cases hle : (server 1).totalResults ≤ (server 1).results.length
    · exact ⟨((server 1).results, 1), by rw [loopAux]; simp [hz, hle]⟩
    · obtain ⟨T, hT⟩ : ∃ T, (server 1).totalResults = T + 1 :=
        ⟨(server 1).totalResults - 1, by omega⟩
      have hb : (server 1).totalResults ≤ (server 1).results.length + T + 1 := by
        omega
      obtain ⟨r, hr⟩ := loopAux_progress_terminates server H T
        ⟨(server 1).results, (server 1).totalResults, 2, 1⟩ hz hb
      rw [← hT] at hr
      refine ⟨r, ?_⟩
      rw [loopAux]
      simpa [hz, hle] using hr

/-- Witness for the amended C2: a server reporting total 3 with one result
per page terminates with fuel 4. -/
theorem C2_amended_termination_witness :
    ∃ r, DownloadObservations goodServer 4 = some r :=
  C2_amended_termination goodServer (fun p h => by simp [goodServer])

/-- C4: the concrete timestamp-resolution vectors: `"2024-05-01"` with empty
time is midnight May 1 2024, `"5/1/2024"` with empty time is the same
instant, `"2024-05-01"` with `"07:00 AM"` is 07:00 that day, `"5/1/2024"`
with `"3:04 PM"` is 15:04 that day, and `"not-a-date"` with any time string
resolves to a format error. -/
theorem C4_timestamp_vectors :
    Record.Observed { Date := "2024-05-01" } = .ok ⟨2024, 5, 1, 0, 0⟩ ∧
    Record.Observed { Date := "5/1/2024" } = .ok ⟨2024, 5, 1, 0, 0⟩ ∧
    Record.Observed { Date := "2024-05-01", Time := "07:00 AM" } = .ok ⟨2024, 5, 1, 7, 0⟩ ∧
    Record.Observed { Date := "5/1/2024", Time := "3:04 PM" } = .ok ⟨2024, 5, 1, 15, 4⟩ ∧
    ∀ t : String, ∃ e, Record.Observed { Date := "not-a-date", Time := t } = .error e := by
  refine ⟨by rfl, by rfl, by rfl, by rfl, ?_⟩
  intro t
  by_cases ht : t = ""
  · subst ht
    exact ⟨"bad value", by rfl⟩
  · refine ⟨"bad value", ?_⟩
    simp only [Record.Observed]
    rw [if_neg ht, if_neg (by decide)]
    rfl

/-- The photo and audio rendition URLs of an asset are always distinct (they
share a prefix but end in suffixes of different lengths). -/
theorem photoURL_ne_audioURL (id : String) : photoURL id ≠ audioURL id := by
  intro h
  have hlen := congrArg String.length h
  simp only [photoURL, audioURL, String.length_append] at hlen
  rw [show ("/2400" : String).length = 5 from rfl, show ("/mp3" : String).length = 4 from rfl]
    at hlen
  omega

/-- C6: asset resolution probe order. If the photo probe answers 200, the
audio endpoint is never requested; if it answers 404, exactly one
audio-endpoint request is made; any other status fails immediately with a
retrieval error carrying the attempted photo URL and status, without probing
the audio endpoint. -/
theorem C6_probe_order (net : String → Except String HttpResp) (env : MLEnv)
    (id : String) (resp : HttpResp) (hresp : net (photoURL id) = .ok resp) :
    (resp.statusCode = 200 →
      (DownloadMLAsset net env id).2 = [photoURL id] ∧
      audioURL id ∉ (DownloadMLAsset net env id).2) ∧
    (resp.statusCode = 404 →
      (DownloadMLAsset net env id).2 = [photoURL id, audioURL id] ∧
      (DownloadMLAsset net env id).2.count (audioURL id) = 1) ∧
    (resp.statusCode ≠ 200 → resp.statusCode ≠ 404 →
      DownloadMLAsset net env id =
        (.error (.retrieval id (photoURL id) resp.statusCode), [photoURL id])) := by
  refine ⟨?_, ?_, ?_⟩
  · intro h200
    have hreq : (DownloadMLAsset net env id).2 = [photoURL id] := by
      simp [DownloadMLAsset, hresp, h200]
    refine ⟨hreq, ?_⟩
    rw [hreq]
    intro hmem
    have heq : audioURL id = photoURL id := by simpa using hmem
    exact photoURL_ne_audioURL id heq.symm
  · intro h404
    have hreq : (DownloadMLAsset net env id).2 = [photoURL id, audioURL id] := by
      cases hn : net (audioURL id) with
      | error e => simp [DownloadMLAsset, hresp, h404, hn]
      | ok r2 => simp [DownloadMLAsset, hresp, h404, hn]
    refine ⟨hreq, ?_⟩
    rw [hreq]
    simp [List.count_cons, Ne.symm (photoURL_ne_audioURL id)]
  · intro h200 h404
    simp [DownloadMLAsset, hresp, h404, finishDownload, h200]

/-- Witness for C6 at concrete networks: a 200 photo probe, a 404 photo
probe with a 200 audio endpoint, and a 500 photo probe. -/
theorem C6_probe_order_witness :
    ((DownloadMLAsset net200 envOK "1").2 = [photoURL "1"] ∧
      audioURL "1" ∉ (DownloadMLAsset net200 envOK "1").2) ∧
    ((DownloadMLAsset net404 envOK "1").2 = [photoURL "1", audioURL "1"] ∧
      (DownloadMLAsset net404 envOK "1").2.count (audioURL "1") = 1) ∧
    DownloadMLAsset net500 envOK "1" =
      (.error (.retrieval "1" (photoURL "1") 500), [photoURL "1"]) :=
  ⟨(C6_probe_order net200 envOK "1" ⟨200⟩ rfl).1 rfl,
   (C6_probe_order net404 envOK "1" ⟨404⟩ (by rfl)).2.1 rfl,
   (C6_probe_order net500 envOK "1" ⟨500⟩ rfl).2.2 (by decide) (by decide)⟩

/-- A decimal digit character is not a slash. -/
theorem digit_ne_slash (c : Char) (h : isDigitC c = true) : c ≠ '/' :=
  fun he => absurd (he ▸ h) (by decide)

/-- A zero-padded ISO date made of digits and dashes contains no slash. -/
theorem slash_not_mem_iso (y1 y2 y3 y4 m1 m2 d1 d2 : Char)
    (hy1 : isDigitC y1 = true) (hy2 : isDigitC y2 = true)
    (hy3 : isDigitC y3 = true) (hy4 : isDigitC y4 = true)
    (hm1 : isDigitC m1 = true) (hm2 : isDigitC m2 = true)
    (hd1 : isDigitC d1 = true) (hd2 : isDigitC d2 = true) :
    '/' ∉ [y1, y2, y3, y4, '-', m1, m2, '-', d1, d2] := by
  intro hmem
  simp only [List.mem_cons, List.not_mem_nil, or_false] at hmem
  rcases hmem with h | h | h | h | h | h | h | h | h | h
  · exact digit_ne_slash y1 hy1 h.symm
  · exact digit_ne_slash y2 hy2 h.symm
  · exact digit_ne_slash y3 hy3 h.symm
  · exact digit_ne_slash y4 hy4 h.symm
  · exact absurd h (by decide)
  · exact digit_ne_slash m1 hm1 h.symm
  · exact digit_ne_slash m2 hm2 h.symm
  · exact absurd h (by decide)
  · exact digit_ne_slash d1 hd1 h.symm
  · exact digit_ne_slash d2 hd2 h.symm

/-- On a record whose date contains no slash and whose time is non-empty,
`Observed` parses the space-joined date and time with the ISO date-time
layout. -/
theorem Observed_iso_time (d t : List Char) (hne : t ≠ []) (hs : '/' ∉ d) :
    Record.Observed { Date := String.mk d, Time := String.mk t } =
      goParse layoutISODateTime ((d ++ [' ']) ++ t) := by
  have htne : String.mk t ≠ "" := fun h => hne (congrArg String.data h)
  have happ : (String.mk d ++ " " ++ String.mk t).data = (d ++ [' ']) ++ t := rfl
  simp only [Record.Observed, htne, hs, ite_false, if_false, happ]

/-- Parsing a digits-and-dashes ISO date followed by a zero-padded 12-hour
time with the ISO date-time layout succeeds and yields the encoded instant
(PM adds 12 to a morning-range hour; AM keeps it). -/
theorem goParse_iso_padded
    (y1 y2 y3 y4 m1 m2 d1 d2 h1 n1 n2 : Char) (isPM : Bool)
    (hy1 : isDigitC y1 = true) (hy2 : isDigitC y2 = true)
    (hy3 : isDigitC y3 = true) (hy4 : isDigitC y4 = true)
    (hm1 : isDigitC m1 = true) (hm2 : isDigitC m2 = true)
    (hd1 : isDigitC d1 = true) (hd2 : isDigitC d2 = true)
    (hh1 : isDigitC h1 = true) (hn1 : isDigitC n1 = true) (hn2 : isDigitC n2 = true)
    (hmo1 : 1 ≤ 10 * digitVal m1 + digitVal m2)
    (hmo2 : 10 * digitVal m1 + digitVal m2 ≤ 12)
    (hdy1 : 1 ≤ 10 * digitVal d1 + digitVal d2)
    (hdy2 : 10 * digitVal d1 + digitVal d2 ≤
      daysIn (10 * digitVal m1 + digitVal m2)
        (1000 * digitVal y1 + 100 * digitVal y2 + 10 * digitVal y3 + digitVal y4))
    (hh1lo : 1 ≤ digitVal h1) (hh1hi : digitVal h1 ≤ 9)
    (hmin : 10 * digitVal n1 + digitVal n2 ≤ 59) :
    goParse layoutISODateTime
      ([y1, y2, y3, y4, '-', m1, m2, '-', d1, d2] ++ [' '] ++
        ['0', h1, ':', n1, n2, ' ', (if isPM then 'P' else 'A'), 'M']) =
      .ok ⟨1000 * digitVal y1 + 100 * digitVal y2 + 10 * digitVal y3 + digitVal y4,
           10 * digitVal m1 + digitVal m2, 10 * digitVal d1 + digitVal d2,
           if isPM then digitVal h1 + 12 else digitVal h1,
           10 * digitVal n1 + digitVal n2⟩ := by
  have h0d : isDigitC '0' = true := rfl
  have hz : digitVal '0' = 0 := rfl
  have hh12 : ¬ (12 < digitVal h1) := by omega
  have hmin60 : ¬ (60 ≤ 10 * digitVal n1 + digitVal n2) := by omega
  have hmonth : ¬ (10 * digitVal m1 + digitVal m2 = 0 ∨ 12 < 10 * digitVal m1 + digitVal m2) := by
    omega
  have hday : ¬ (10 * digitVal d1 + digitVal d2 = 0 ∨
      daysIn (10 * digitVal m1 + digitVal m2)
          (1000 * digitVal y1 + 100 * digitVal y2 + 10 * digitVal y3 + digitVal y4) <
        10 * digitVal d1 + digitVal d2) := by
    omega
  have hlt12 : digitVal h1 < 12 := by omega
  have hne12 : ¬ (digitVal h1 = 12) := by omega
  cases isPM with
  | true =>
    simp only [layoutISODateTime, layoutISODate, List.cons_append, List.nil_append, ite_true,
      if_true]
    simp [goParse, runToks, parseTok, getYear4, getnum, hy1, hy2, hy3, hy4, hm1, hm2,
      hd1, hd2, hh1, hn1, hn2, h0d, hz, hh12, hmin60, hmonth, hday, hlt12, hne12]
    rw [if_neg (show ¬ (digitVal m1 = 0 ∧ digitVal m2 = 0 ∨
          12 < 10 * digitVal m1 + digitVal m2) by omega),
      if_neg (show ¬ (digitVal d1 = 0 ∧ digitVal d2 = 0 ∨
          daysIn (10 * digitVal m1 + digitVal m2)
              (1000 * digitVal y1 + 100 * digitVal y2 + 10 * digitVal y3 + digitVal y4) <
            10 * digitVal d1 + digitVal d2) by omega)]
  | false =>
    simp only [layoutISODateTime, layoutISODate, List.cons_append, List.nil_append, ite_false,
      if_false]
    simp [goParse, runToks, parseTok, getYear4, getnum, hy1, hy2, hy3, hy4, hm1, hm2,
      hd1, hd2, hh1, hn1, hn2, h0d, hz, hh12, hmin60, hmonth, hday, hlt12, hne12]
    rw [if_neg (show ¬ (digitVal m1 = 0 ∧ digitVal m2 = 0 ∨
          12 < 10 * digitVal m1 + digitVal m2) by omega),
      if_neg (show ¬ (digitVal d1 = 0 ∧ digitVal d2 = 0 ∨
          daysIn (10 * digitVal m1 + digitVal m2)
              (1000 * digitVal y1 + 100 * digitVal y2 + 10 * digitVal y3 + digitVal y4) <
            10 * digitVal d1 + digitVal d2) by omega)]

/-- Parsing a digits-and-dashes ISO date followed by an unpadded 12-hour time
(single hour digit directly followed by the colon) with the ISO date-time
layout fails: the zero-padded hour token requires two digits. -/
theorem goParse_iso_unpadded_fails
    (y1 y2 y3 y4 m1 m2 d1 d2 h1 : Char) (rest : List Char)
    (hy1 : isDigitC y1 = true) (hy2 : isDigitC y2 = true)
    (hy3 : isDigitC y3 = true) (hy4 : isDigitC y4 = true)
    (hm1 : isDigitC m1 = true) (hm2 : isDigitC m2 = true)
    (hd1 : isDigitC d1 = true) (hd2 : isDigitC d2 = true)
    (hh1 : isDigitC h1 = true) :
    goParse layoutISODateTime
      ([y1, y2, y3, y4, '-', m1, m2, '-', d1, d2] ++ [' '] ++ (h1 :: ':' :: rest)) =
      .error "bad value" := by
  simp only [layoutISODateTime, layoutISODate, List.cons_append, List.nil_append]
  simp [goParse, runToks, parseTok, getYear4, getnum, hy1, hy2, hy3, hy4, hm1, hm2,
    hd1, hd2, hh1, show isDigitC ':' = false from rfl]

/-- C3 counterexample: on the ISO branch the unpadded time form is rejected:
for date `"2024-05-01"` there is no instant at which both `"3:04 PM"`
(unpadded) and `"03:04 PM"` (padded) resolve — the unpadded form fails. -/
theorem C3_counterexample :
    ¬ ∃ v, Record.Observed { Date := "2024-05-01", Time := "3:04 PM" } = .ok v ∧
           Record.Observed { Date := "2024-05-01", Time := "03:04 PM" } = .ok v := by
  rintro ⟨v, h1, h2⟩
  have h : Record.Observed { Date := "2024-05-01", Time := "3:04 PM" } =
      .error "bad value" := rfl
  rw [h] at h1
  exact Except.noConfusion h1

/-- C3 (amended): on the ISO branch only the zero-padded 12-hour form is
accepted: for every valid zero-padded ISO date and clock time with a
single-digit hour, resolving the padded form `"0h:mm AM/PM"` succeeds and
yields the encoded instant, while resolving the unpadded form `"h:mm AM/PM"`
fails with a format error (for two-digit hours 10-12 the two forms are the
same string, so they trivially agree). -/
theorem C3_amended_iso_padded_only
    (y1 y2 y3 y4 m1 m2 d1 d2 h1 n1 n2 : Char) (isPM : Bool)
    (hy1 : isDigitC y1 = true) (hy2 : isDigitC y2 = true)
    (hy3 : isDigitC y3 = true) (hy4 : isDigitC y4 = true)
    (hm1 : isDigitC m1 = true) (hm2 : isDigitC m2 = true)
    (hd1 : isDigitC d1 = true) (hd2 : isDigitC d2 = true)
    (hh1 : isDigitC h1 = true) (hn1 : isDigitC n1 = true) (hn2 : isDigitC n2 = true)
    (hmo1 : 1 ≤ 10 * digitVal m1 + digitVal m2)
    (hmo2 : 10 * digitVal m1 + digitVal m2 ≤ 12)
    (hdy1 : 1 ≤ 10 * digitVal d1 + digitVal d2)
    (hdy2 : 10 * digitVal d1 + digitVal d2 ≤
      daysIn (10 * digitVal m1 + digitVal m2)
        (1000 * digitVal y1 + 100 * digitVal y2 + 10 * digitVal y3 + digitVal y4))
    (hh1lo : 1 ≤ digitVal h1) (hh1hi : digitVal h1 ≤ 9)
    (hmin : 10 * digitVal n1 + digitVal n2 ≤ 59) :
    Record.Observed
        { Date := String.mk [y1, y2, y3, y4, '-', m1, m2, '-', d1, d2],
          Time := String.mk ['0', h1, ':', n1, n2, ' ', (if isPM then 'P' else 'A'), 'M'] } =
      .ok ⟨1000 * digitVal y1 + 100 * digitVal y2 + 10 * digitVal y3 + digitVal y4,
           10 * digitVal m1 + digitVal m2, 10 * digitVal d1 + digitVal d2,
           if isPM then digitVal h1 + 12 else digitVal h1,
           10 * digitVal n1 + digitVal n2⟩ ∧
    Record.Observed
        { Date := String.mk [y1, y2, y3, y4, '-', m1, m2, '-', d1, d2],
          Time := String.mk [h1, ':', n1, n2, ' ', (if isPM then 'P' else 'A'), 'M'] } =
      .error "bad value" := by
  have hs := slash_not_mem_iso y1 y2 y3 y4 m1 m2 d1 d2 hy1 hy2 hy3 hy4 hm1 hm2 hd1 hd2
  constructor
  · rw [Observed_iso_time _ _ (List.cons_ne_nil _ _) hs]
    exact goParse_iso_padded y1 y2 y3 y4 m1 m2 d1 d2 h1 n1 n2 isPM hy1 hy2 hy3 hy4
      hm1 hm2 hd1 hd2 hh1 hn1 hn2 hmo1 hmo2 hdy1 hdy2 hh1lo hh1hi hmin
  · rw [Observed_iso_time _ _ (List.cons_ne_nil _ _) hs]
    exact goParse_iso_unpadded_fails y1 y2 y3 y4 m1 m2 d1 d2 h1
      [n1, n2, ' ', (if isPM then 'P' else 'A'), 'M'] hy1 hy2 hy3 hy4 hm1 hm2 hd1 hd2 hh1

/-- Witness for the amended C3 at the concrete date 2024-05-01 and clock
time 7:30 PM: the padded form resolves to 19:30 and the unpadded form
fails. -/
theorem C3_amended_iso_padded_only_witness :
    Record.Observed
        { Date := String.mk ['2', '0', '2', '4', '-', '0', '5', '-', '0', '1'],
          Time := String.mk ['0', '7', ':', '3', '0', ' ', 'P', 'M'] } =
      .ok ⟨2024, 5, 1, 19, 30⟩ ∧
    Record.Observed
        { Date := String.mk ['2', '0', '2', '4', '-', '0', '5', '-', '0', '1'],
          Time := String.mk ['7', ':', '3', '0', ' ', 'P', 'M'] } =
      .error "bad value" :=
  C3_amended_iso_padded_only '2' '0' '2' '4' '0' '5' '0' '1' '7' '3' '0' true
    rfl rfl rfl rfl rfl rfl rfl rfl rfl rfl rfl
    (by decide) (by decide) (by decide) (by decide) (by decide) (by decide) (by decide)

end Birdsync
